import Mathlib

/-!
Shallow embedding of `scripts/python_repl_server.py`.

The server is a long-lived worker: a framed transport loop (`main`), a
JSON-RPC-style dispatcher (`handle_message`) and an evaluator
(`execute_python`) running snippets against a process-wide session dict
(`state`), with stdout/stderr capture (`capture_output`).

Python itself is modelled on the fragment of the language the snippets of
the specification exercise: integer literals, identifiers, binary `+`,
single-argument calls (with the builtin `print`), assignment statements and
expression statements.  `eval`'s parse stage is `parseExpr` (returning
`none` exactly when Python would raise `SyntaxError` while compiling the
snippet as an expression), `exec`'s parse stage is `parseStmts`.  Runtime
faults carry their Python exception class, because the source branches on
the class (`except SyntaxError`).  Machine strings are Lean `String`s,
Python `None` is `PyVal.pynone` and an `Option` field models a value that
is Python `None` / JSON `null`.
-/

namespace PyRepl

/-- Python values arising in the modelled fragment: integers, `None`, and
the builtin `print` function object. -/
inductive PyVal where
  | int (n : Int)
  | pynone
  | builtinPrint
  deriving DecidableEq, Repr

/-- The session dictionary `state`: an insertion-ordered mapping from
identifier to value, as a Python dict. -/
abbrev Session := List (String × PyVal)

/-- Dict lookup in the session. -/
def lookupVar (g : Session) (x : String) : Option PyVal :=
  match g with
  | [] => none
  | (y, v) :: rest => if y == x then some v else lookupVar rest x

/-- Dict update in the session (in-place overwrite, preserving insertion
order, as a Python dict assignment). -/
def setVar (g : Session) (x : String) (v : PyVal) : Session :=
  match g with
  | [] => [(x, v)]
  | (y, w) :: rest => if y == x then (y, v) :: rest else (y, w) :: setVar rest x v

/-- Python exception classes that the modelled code can raise or branch on. -/
inductive ExcClass where
  | syntaxError
  | nameError
  | typeError
  | valueError
  | attributeError
  | jsonDecodeError
  deriving DecidableEq, Repr

/-- A raised Python exception: its class and its `str(e)` message. -/
structure PyExc where
  cls : ExcClass
  msg : String
  deriving DecidableEq, Repr

/-- `NameError` raised when an unbound identifier is evaluated. -/
def nameErr (x : String) : PyExc :=
  ⟨ExcClass.nameError, "name \x27" ++ x ++ "\x27 is not defined"⟩

/-- `TypeError` raised by `+` on unsupported operands. -/
def typeErrAdd : PyExc :=
  ⟨ExcClass.typeError, "unsupported operand type(s) for +"⟩

/-- `TypeError` raised when calling a non-callable value. -/
def typeErrCall : PyExc :=
  ⟨ExcClass.typeError, "object is not callable"⟩

/-- `SyntaxError` raised by `exec` when the snippet does not compile. -/
def syntaxExc : PyExc :=
  ⟨ExcClass.syntaxError, "invalid syntax"⟩

/-- `TypeError` raised by `eval` when its first argument is not a string. -/
def typeErrEvalArg : PyExc :=
  ⟨ExcClass.typeError, "eval() arg 1 must be a string, bytes or code object"⟩

/-- Tokens of the modelled Python fragment. -/
inductive Tok where
  | int (n : Nat)
  | ident (s : String)
  | plus
  | eq
  | lparen
  | rparen
  deriving DecidableEq, Repr

/-- Decimal digits to a number. -/
def digitsToNat (ds : List Char) : Nat :=
  ds.foldl (fun n c => 10 * n + (c.toNat - 48)) 0

/-- Characters allowed after the first character of an identifier. -/
def isIdentChar (c : Char) : Bool :=
  c.isAlpha || c.isDigit || c == '_'

/-- Fueled tokenizer for the Python fragment; `none` is a syntax rejection
(the snippet falls outside the tokens of the fragment). -/
def tokenizeF : Nat → List Char → Option (List Tok)
  | 0, _ => none
  | _ + 1, [] => some []
  | f + 1, c :: cs =>
    if c == ' ' || c == '\t' then tokenizeF f cs
    else if c.isDigit then
      (tokenizeF f (List.dropWhile Char.isDigit (c :: cs))).map
        (fun ts => Tok.int (digitsToNat (List.takeWhile Char.isDigit (c :: cs))) :: ts)
    else if c.isAlpha || c == '_' then
      (tokenizeF f (List.dropWhile isIdentChar (c :: cs))).map
        (fun ts => Tok.ident (String.mk (List.takeWhile isIdentChar (c :: cs))) :: ts)
    else if c == '+' then (tokenizeF f cs).map (fun ts => Tok.plus :: ts)
    else if c == '=' then (tokenizeF f cs).map (fun ts => Tok.eq :: ts)
    else if c == '(' then (tokenizeF f cs).map (fun ts => Tok.lparen :: ts)
    else if c == ')' then (tokenizeF f cs).map (fun ts => Tok.rparen :: ts)
    else none

/-- Tokenize a snippet. -/
def tokenize (code : String) : Option (List Tok) :=
  tokenizeF (code.toList.length + 1) code.toList

/-- Expressions of the modelled Python fragment. -/
inductive Expr where
  | lit (n : Nat)
  | var (x : String)
  | add (a b : Expr)
  | call (f : String) (a : Expr)
  deriving DecidableEq, Repr

/-- Statements of the modelled Python fragment. -/
inductive Stmt where
  | assign (x : String) (e : Expr)
  | exprStmt (e : Expr)
  deriving DecidableEq, Repr

mutual

/-- Fueled parser: one term (literal, identifier, or call). -/
def parseTermF : Nat → List Tok → Option (Expr × List Tok)
  | 0, _ => none
  | f + 1, ts =>
    match ts with
    | Tok.int n :: r => some (Expr.lit n, r)
    | Tok.ident x :: Tok.lparen :: r =>
      match parseSumF f r with
      | some (a, Tok.rparen :: r2) => some (Expr.call x a, r2)
      | _ => none
    | Tok.ident x :: r => some (Expr.var x, r)
    | _ => none

/-- Fueled parser: a sum `term (+ term)*`. -/
def parseSumF : Nat → List Tok → Option (Expr × List Tok)
  | 0, _ => none
  | f + 1, ts =>
    match parseTermF f ts with
    | some (a, r) => parseTailF f a r
    | none => none

/-- Fueled parser: the `(+ term)*` tail of a sum. -/
def parseTailF : Nat → Expr → List Tok → Option (Expr × List Tok)
  | 0, _, _ => none
  | f + 1, acc, ts =>
    match ts with
    | Tok.plus :: r =>
      match parseTermF f r with
      | some (b, r2) => parseTailF f (Expr.add acc b) r2
      | none => none
    | _ => some (acc, ts)

end

/-- `eval`'s parse stage on the fragment: `some e` when the snippet is a
syntactically valid expression, `none` when `eval` raises `SyntaxError`
while compiling it (the empty snippet included). -/
def parseExpr (code : String) : Option Expr :=
  match tokenize code with
  | none => none
  | some ts =>
    match parseSumF (ts.length + 1) ts with
    | some (e, []) => some e
    | _ => none

/-- `exec`'s parse stage on the fragment: the empty snippet compiles to no
statements, `x = e` to an assignment, otherwise the snippet must be a
single expression statement; `none` when `exec` raises `SyntaxError`. -/
def parseStmts (code : String) : Option (List Stmt) :=
  match tokenize code with
  | none => none
  | some [] => some []
  | some (Tok.ident x :: Tok.eq :: r) =>
    match parseSumF (r.length + 1) r with
    | some (e, []) => some [Stmt.assign x e]
    | _ => none
  | some ts =>
    match parseSumF (ts.length + 1) ts with
    | some (e, []) => some [Stmt.exprStmt e]
    | _ => none

/-- Python `str()` of a fragment value (used by `print`). -/
def pyStrVal : PyVal → String
  | PyVal.int n => toString n
  | PyVal.pynone => "None"
  | PyVal.builtinPrint => "<built-in function print>"

/-- `repr(result) if result is not None else None` from the source:
the value's textual representation, or absent for Python `None`. -/
def reprOpt : PyVal → Option String
  | PyVal.pynone => none
  | PyVal.int n => some (toString n)
  | PyVal.builtinPrint => some "<built-in function print>"

/-- Python `+` on fragment values: defined on integers, `TypeError`
otherwise. -/
def addVals : PyVal → PyVal → Except PyExc PyVal
  | PyVal.int a, PyVal.int b => Except.ok (PyVal.int (a + b))
  | _, _ => Except.error typeErrAdd

/-- Name resolution as in `eval(code, state)`: the session globals first,
then the builtins (only `print` in the fragment); `NameError` otherwise. -/
def resolveName (g : Session) (x : String) : Except PyExc PyVal :=
  match lookupVar g x with
  | some v => Except.ok v
  | none => if x == "print" then Except.ok PyVal.builtinPrint else Except.error (nameErr x)

/-- Evaluate an expression against the session.  Returns the text written
to the (redirected) stdout — output printed before a fault stays in the
capture buffer, as in Python — together with the value or the raised
exception.  Expression evaluation never mutates the session in the
fragment. -/
def evalExpr (g : Session) : Expr → String × Except PyExc PyVal
  | Expr.lit n => ("", Except.ok (PyVal.int n))
  | Expr.var x => ("", resolveName g x)
  | Expr.add a b =>
    match evalExpr g a with
    | (o1, Except.error e) => (o1, Except.error e)
    | (o1, Except.ok v1) =>
      match evalExpr g b with
      | (o2, Except.error e) => (o1 ++ o2, Except.error e)
      | (o2, Except.ok v2) => (o1 ++ o2, addVals v1 v2)
  | Expr.call f a =>
    match resolveName g f with
    | Except.error e => ("", Except.error e)
    | Except.ok PyVal.builtinPrint =>
      match evalExpr g a with
      | (o, Except.error e) => (o, Except.error e)
      | (o, Except.ok v) => (o ++ pyStrVal v ++ "\n", Except.ok PyVal.pynone)
    | Except.ok _ =>
      match evalExpr g a with
      | (o, Except.error e) => (o, Except.error e)
      | (o, Except.ok _) => (o, Except.error typeErrCall)

/-- Execute one statement: the printed output, the updated session, and
either normal completion or a raised exception. -/
def execStmt (g : Session) : Stmt → String × Session × Except PyExc Unit
  | Stmt.assign x e =>
    match evalExpr g e with
    | (o, Except.error ex) => (o, g, Except.error ex)
    | (o, Except.ok v) => (o, setVar g x v, Except.ok ())
  | Stmt.exprStmt e =>
    match evalExpr g e with
    | (o, Except.error ex) => (o, g, Except.error ex)
    | (o, Except.ok _) => (o, g, Except.ok ())

/-- Execute a statement list in order, stopping at the first raised
exception (whose prior output and session mutations remain). -/
def execStmts (g : Session) : List Stmt → String × Session × Except PyExc Unit
  | [] => ("", g, Except.ok ())
  | s :: rest =>
    match execStmt g s with
    | (o, g', Except.error ex) => (o, g', Except.error ex)
    | (o, g', Except.ok _) =>
      match execStmts g' rest with
      | (o2, g2, r) => (o ++ o2, g2, r)

/-- Where a process stream currently points: the real stream or a
call-scoped `StringIO` capture buffer. -/
inductive StreamTarget where
  | real
  | captureBuf
  deriving DecidableEq, Repr

/-- The redirectable slots `sys.stdout` and `sys.stderr`. -/
structure SysState where
  stdoutTarget : StreamTarget
  stderrTarget : StreamTarget
  deriving DecidableEq, Repr

/-- The process's initial stream state: both slots point at the real
streams. -/
def procSys0 : SysState := ⟨StreamTarget.real, StreamTarget.real⟩

/-- The `capture_output` context manager: returns the redirected state
installed for the body and the saved prior state, which the `finally`
block reinstalls on every exit path. -/
def capture_output (sys : SysState) : SysState × SysState :=
  (⟨StreamTarget.captureBuf, StreamTarget.captureBuf⟩, sys)

/-- The dict returned by `execute_python`, with the source's key order:
`success`, `output` (captured stdout), `error` (captured stderr),
`result` (`None` modelled as `Option.none`). -/
structure ExecResult where
  success : Bool
  output : String
  error : String
  result : Option String
  deriving DecidableEq, Repr

/-- `traceback.format_exc()` for a raised exception: a non-empty formatted
trace ending in the exception's class and message. -/
def formatExc (e : PyExc) : String :=
  "Traceback (most recent call last):\n  File \"<string>\", line 1, in <module>\n"
    ++ excClsName e.cls ++ ": " ++ e.msg ++ "\n"
where
  excClsName : ExcClass → String
    | ExcClass.syntaxError => "SyntaxError"
    | ExcClass.nameError => "NameError"
    | ExcClass.typeError => "TypeError"
    | ExcClass.valueError => "ValueError"
    | ExcClass.attributeError => "AttributeError"
    | ExcClass.jsonDecodeError => "json.decoder.JSONDecodeError"

/-- The failure branch of `execute_python`: captured stderr is empty in
the fragment, and the source appends a newline and the formatted trace. -/
def failResult (out : String) (e : PyExc) : ExecResult :=
  ⟨false, out, "" ++ "\n" ++ formatExc e, none⟩

/-- The `except SyntaxError: exec(code, global_vars)` branch: output
already in the capture buffer (`out0`) stays; `exec` may itself raise a
`SyntaxError` (caught by the outer `except Exception`) or a runtime
fault. -/
def runExecPath (code : String) (out0 : String) (g : Session) : ExecResult × Session :=
  match parseStmts code with
  | none => (failResult out0 syntaxExc, g)
  | some ss =>
    match execStmts g ss with
    | (out, g', Except.ok _) => (⟨true, out0 ++ out, "", none⟩, g')
    | (out, g', Except.error ex) => (failResult (out0 ++ out) ex, g')

/-- `execute_python(code, global_vars)`: under `capture_output`, try
`eval`; on `SyntaxError` (by exception class, as the source's
`except SyntaxError`) fall back to `exec`; any other exception is caught
by the outer `except Exception` and reported as a failure.  The saved
stream state is reinstalled on every path. -/
def execute_python (code : String) (sys : SysState) (g : Session) :
    ExecResult × SysState × Session :=
  let redirected := capture_output sys
  let saved := redirected.2
  let body : ExecResult × Session :=
    match parseExpr code with
    | some e =>
      match evalExpr g e with
      | (out, Except.ok v) => (⟨true, out, "", reprOpt v⟩, g)
      | (out, Except.error ex) =>
        if ex.cls == ExcClass.syntaxError then runExecPath code out g
        else (failResult out ex, g)
    | none => runExecPath code "" g
  (body.1, saved, body.2)

/-- JSON documents, as produced by `json.loads` (objects keep the textual
key order; duplicate keys resolve to the last occurrence, as a Python
dict). -/
inductive Json where
  | null
  | bool (b : Bool)
  | num (n : Int)
  | str (s : String)
  | arr (xs : List Json)
  | obj (kvs : List (String × Json))

/-- The characters `json` treats as whitespace. -/
def isJsonWs (c : Char) : Bool :=
  c == ' ' || c == '\t' || c == '\n' || c == '\r'

/-- Skip JSON whitespace. -/
def skipWs (cs : List Char) : List Char :=
  List.dropWhile isJsonWs cs

/-- `json.JSONDecodeError` with a message. -/
def jsonErr (m : String) : PyExc :=
  ⟨ExcClass.jsonDecodeError, m⟩

/-- Fueled parser for the contents of a JSON string literal (after the
opening quote), handling the basic escapes. -/
def parseJStrF : Nat → List Char → Except PyExc (String × List Char)
  | 0, _ => Except.error (jsonErr "Unterminated string")
  | f + 1, cs =>
    match cs with
    | [] => Except.error (jsonErr "Unterminated string starting at")
    | '"' :: r => Except.ok ("", r)
    | '\\' :: e :: r =>
      match (if e == '"' then some "\""
             else if e == '\\' then some "\\"
             else if e == '/' then some "/"
             else if e == 'n' then some "\n"
             else if e == 't' then some "\t"
             else if e == 'r' then some "\r"
             else if e == 'b' then some "\x08"
             else if e == 'f' then some "\x0c"
             else none) with
      | some s =>
        match parseJStrF f r with
        | Except.ok (rest, r2) => Except.ok (s ++ rest, r2)
        | Except.error er => Except.error er
      | none => Except.error (jsonErr "Invalid \\escape")
    | c :: r =>
      if c.toNat < 32 then Except.error (jsonErr "Invalid control character")
      else
        match parseJStrF f r with
        | Except.ok (rest, r2) => Except.ok (String.mk [c] ++ rest, r2)
        | Except.error er => Except.error er

mutual

/-- Fueled parser for one JSON value, leading whitespace allowed. -/
def parseJsonF : Nat → List Char → Except PyExc (Json × List Char)
  | 0, _ => Except.error (jsonErr "Expecting value")
  | f + 1, cs =>
    match skipWs cs with
    | [] => Except.error (jsonErr "Expecting value")
    | '"' :: r =>
      match parseJStrF (r.length + 1) r with
      | Except.ok (s, r2) => Except.ok (Json.str s, r2)
      | Except.error e => Except.error e
    | '\x7b' :: r =>
      match skipWs r with
      | '\x7d' :: r2 => Except.ok (Json.obj [], r2)
      | r2 => parseJMembersF f [] r2
    | '[' :: r =>
      match skipWs r with
      | ']' :: r2 => Except.ok (Json.arr [], r2)
      | r2 => parseJItemsF f [] r2
    | '-' :: r =>
      match List.takeWhile Char.isDigit r with
      | [] => Except.error (jsonErr "Expecting value")
      | ds => Except.ok (Json.num (-(digitsToNat ds : Int)), List.dropWhile Char.isDigit r)
    | c :: r =>
      if c.isDigit then
        Except.ok (Json.num (digitsToNat (List.takeWhile Char.isDigit (c :: r)) : Int),
          List.dropWhile Char.isDigit (c :: r))
      else if List.isPrefixOf ['t', 'r', 'u', 'e'] (c :: r) then
        Except.ok (Json.bool true, (c :: r).drop 4)
      else if List.isPrefixOf ['f', 'a', 'l', 's', 'e'] (c :: r) then
        Except.ok (Json.bool false, (c :: r).drop 5)
      else if List.isPrefixOf ['n', 'u', 'l', 'l'] (c :: r) then
        Except.ok (Json.null, (c :: r).drop 4)
      else Except.error (jsonErr "Expecting value")

/-- Fueled parser for the members of a JSON object, after `{` (and not
facing `}`): accumulates key/value pairs in textual order. -/
def parseJMembersF (f : Nat) (acc : List (String × Json)) (cs : List Char) :
    Except PyExc (Json × List Char) :=
  match f with
  | 0 => Except.error (jsonErr "Expecting property name")
  | f + 1 =>
    match skipWs cs with
    | '"' :: r =>
      match parseJStrF (r.length + 1) r with
      | Except.error e => Except.error e
      | Except.ok (k, r2) =>
        match skipWs r2 with
        | ':' :: r3 =>
          match parseJsonF f r3 with
          | Except.error e => Except.error e
          | Except.ok (v, r4) =>
            match skipWs r4 with
            | ',' :: r5 => parseJMembersF f (acc ++ [(k, v)]) r5
            | '\x7d' :: r5 => Except.ok (Json.obj (acc ++ [(k, v)]), r5)
            | _ => Except.error (jsonErr "Expecting , delimiter")
        | _ => Except.error (jsonErr "Expecting : delimiter")
    | _ => Except.error (jsonErr "Expecting property name enclosed in double quotes")

/-- Fueled parser for the items of a JSON array, after `[` (and not
facing `]`). -/
def parseJItemsF (f : Nat) (acc : List Json) (cs : List Char) :
    Except PyExc (Json × List Char) :=
  match f with
  | 0 => Except.error (jsonErr "Expecting value")
  | f + 1 =>
    match parseJsonF f cs with
    | Except.error e => Except.error e
    | Except.ok (v, r) =>
      match skipWs r with
      | ',' :: r2 => parseJItemsF f (acc ++ [v]) r2
      | ']' :: r2 => Except.ok (Json.arr (acc ++ [v]), r2)
      | _ => Except.error (jsonErr "Expecting , delimiter")

end

/-- `json.loads` on the modelled JSON subset: one document, nothing but
whitespace after it. -/
def loads (s : String) : Except PyExc Json :=
  match parseJsonF (s.toList.length + 1) s.toList with
  | Except.error e => Except.error e
  | Except.ok (j, rest) =>
    if (skipWs rest).isEmpty then Except.ok j
    else Except.error (jsonErr "Extra data")

/-- Escape a string for JSON output, as `json.dumps` does. -/
def escapeJson (s : String) : String :=
  String.join (s.toList.map fun c =>
    if c == '"' then "\\\""
    else if c == '\\' then "\\\\"
    else if c == '\n' then "\\n"
    else if c == '\t' then "\\t"
    else if c == '\r' then "\\r"
    else String.mk [c])

mutual

/-- `json.dumps` with Python's default separators (", " and ": "). -/
def dumps : Json → String
  | Json.null => "null"
  | Json.bool true => "true"
  | Json.bool false => "false"
  | Json.num n => toString n
  | Json.str s => "\"" ++ escapeJson s ++ "\""
  | Json.arr xs => "[" ++ dumpsItems xs ++ "]"
  | Json.obj kvs => "\x7b" ++ dumpsMembers kvs ++ "\x7d"

/-- Serialize array items, comma-separated. -/
def dumpsItems : List Json → String
  | [] => ""
  | [x] => dumps x
  | x :: y :: xs => dumps x ++ ", " ++ dumpsItems (y :: xs)

/-- Serialize object members, comma-separated. -/
def dumpsMembers : List (String × Json) → String
  | [] => ""
  | [p] => "\"" ++ escapeJson p.1 ++ "\": " ++ dumps p.2
  | p :: q :: kvs =>
    "\"" ++ escapeJson p.1 ++ "\": " ++ dumps p.2 ++ ", " ++ dumpsMembers (q :: kvs)

end

/-- The Python type name of a loaded JSON value, for `AttributeError`
messages. -/
def pyTypeName : Json → String
  | Json.null => "NoneType"
  | Json.bool _ => "bool"
  | Json.num _ => "int"
  | Json.str _ => "str"
  | Json.arr _ => "list"
  | Json.obj _ => "dict"

/-- The `AttributeError` raised by `.get(...)` on a non-dict value. -/
def attrNoGet (j : Json) : PyExc :=
  ⟨ExcClass.attributeError, "\x27" ++ pyTypeName j ++ "\x27 object has no attribute \x27get\x27"⟩

mutual

/-- Python `str()` of a loaded JSON value (used by the f-string in the
tool-not-found message). -/
def pyStrJson : Json → String
  | Json.null => "None"
  | Json.bool true => "True"
  | Json.bool false => "False"
  | Json.num n => toString n
  | Json.str s => s
  | Json.arr xs => "[" ++ pyStrItems xs ++ "]"
  | Json.obj kvs => "\x7b" ++ pyStrMembers kvs ++ "\x7d"

/-- Python `repr()` of a loaded JSON value, used for container elements
(strings get quoted). -/
def pyReprJson : Json → String
  | Json.str s => "\x27" ++ s ++ "\x27"
  | Json.arr xs => "[" ++ pyStrItems xs ++ "]"
  | Json.obj kvs => "\x7b" ++ pyStrMembers kvs ++ "\x7d"
  | Json.null => "None"
  | Json.bool true => "True"
  | Json.bool false => "False"
  | Json.num n => toString n

/-- `str()` of list items, comma-separated. -/
def pyStrItems : List Json → String
  | [] => ""
  | [x] => pyReprJson x
  | x :: y :: xs => pyReprJson x ++ ", " ++ pyStrItems (y :: xs)

/-- `str()` of dict members, comma-separated. -/
def pyStrMembers : List (String × Json) → String
  | [] => ""
  | [p] => "\x27" ++ p.1 ++ "\x27: " ++ pyReprJson p.2
  | p :: q :: kvs =>
    "\x27" ++ p.1 ++ "\x27: " ++ pyReprJson p.2 ++ ", " ++ pyStrMembers (q :: kvs)

end

/-- Whether a dict built by `json.loads` has a key. -/
def objHas (kvs : List (String × Json)) (k : String) : Bool :=
  kvs.any fun p => p.1 == k

/-- Dict lookup with a default: the last occurrence wins, as duplicate
keys overwrite in a Python dict. -/
def objGetD (kvs : List (String × Json)) (k : String) (d : Json) : Json :=
  match kvs.reverse.find? (fun p => p.1 == k) with
  | some p => p.2
  | none => d

/-- `j.get(k)` on a dict value (callers establish that `j` is a dict);
Python's `.get` default is `None`. -/
def jget (j : Json) (k : String) : Json :=
  match j with
  | Json.obj kvs => objGetD kvs k Json.null
  | _ => Json.null

/-- `j.get(k, d)` on a dict value. -/
def jgetD (j : Json) (k : String) (d : Json) : Json :=
  match j with
  | Json.obj kvs => objGetD kvs k d
  | _ => d

/-- Whether a response document has a member. -/
def Json.hasKey (j : Json) (k : String) : Bool :=
  match j with
  | Json.obj kvs => objHas kvs k
  | _ => false

/-- Python `==` between a loaded JSON value and a string literal: true
exactly for the equal string. -/
def Json.eqStr (j : Json) (s : String) : Bool :=
  match j with
  | Json.str t => t == s
  | _ => false

/-- A success envelope, with the source's key order. -/
def successResponse (idv : Json) (result : Json) : Json :=
  Json.obj [("jsonrpc", Json.str "2.0"), ("id", idv), ("result", result)]

/-- An error envelope, with the source's key order. -/
def errorResponse (idv : Json) (code : Int) (msg : String) : Json :=
  Json.obj [("jsonrpc", Json.str "2.0"), ("id", idv),
    ("error", Json.obj [("code", Json.num code), ("message", Json.str msg)])]

/-- The `initialize` result literal from the source. -/
def initializeResult : Json :=
  Json.obj [("protocolVersion", Json.str "2024-11-05"),
    ("capabilities", Json.obj []),
    ("serverInfo", Json.obj [("name", Json.str "python-repl"),
      ("version", Json.str "1.0.0")])]

/-- The `tools/list` result literal from the source. -/
def toolsListResult : Json :=
  Json.obj [("tools", Json.arr [Json.obj [("name", Json.str "execute"),
    ("description", Json.str "Execute Python code"),
    ("schema", Json.obj [("type", Json.str "object"),
      ("properties", Json.obj [("code", Json.obj [("type", Json.str "string"),
        ("description", Json.str "The Python code to execute")])]),
      ("required", Json.arr [Json.str "code"])])]])]

/-- The execution-result dict as serialized into the response: the keys
are `success`, `output`, `error`, `result`, in the source's insertion
order; a `None` result serializes as `null`. -/
def ExecResult.toJson (r : ExecResult) : Json :=
  Json.obj [("success", Json.bool r.success), ("output", Json.str r.output),
    ("error", Json.str r.error),
    ("result", match r.result with
      | some s => Json.str s
      | none => Json.null)]

/-- `execute_python` as invoked by the dispatcher: `arguments.code` is a
loaded JSON value, and `eval` raises `TypeError` (caught by the outer
`except Exception`) when it is not a string. -/
def execute_python_j (codej : Json) (sys : SysState) (g : Session) :
    ExecResult × SysState × Session :=
  match codej with
  | Json.str s => execute_python s sys g
  | _ =>
    let redirected := capture_output sys
    (failResult "" typeErrEvalArg, redirected.2, g)

/-- The routing table of `handle_message`, after `method`, `params` and
`id` have been extracted from the envelope dict.  An `AttributeError`
raised by `.get` on a non-dict `params` or `arguments` is caught by the
enclosing `except Exception`, which can still determine the id, so it
becomes a -32603 error response. -/
def dispatch (method params idv : Json) (g : Session) : Except PyExc (Json × Session) :=
  if method.eqStr "initialize" then
    Except.ok (successResponse idv initializeResult, g)
  else if method.eqStr "tools/list" then
    Except.ok (successResponse idv toolsListResult, g)
  else if method.eqStr "tools/execute" then
    match params with
    | Json.obj pkvs =>
      let tool := objGetD pkvs "tool" Json.null
      let args := objGetD pkvs "arguments" (Json.obj [])
      if tool.eqStr "execute" then
        match args with
        | Json.obj akvs =>
          let codej := objGetD akvs "code" (Json.str "")
          let r := execute_python_j codej procSys0 g
          Except.ok (successResponse idv (ExecResult.toJson r.1), r.2.2)
        | other =>
          Except.ok (errorResponse idv (-32603) (attrNoGet other).msg, g)
      else
        Except.ok (errorResponse idv (-32601) ("Tool not found: " ++ pyStrJson tool), g)
    | other =>
      Except.ok (errorResponse idv (-32603) (attrNoGet other).msg, g)
  else
    Except.ok (successResponse idv (Json.obj []), g)

/-- `handle_message` after `json.loads`: a parse failure is caught with
`message_json` unbound, so the error response carries a null id; a loaded
non-dict document makes `message_json.get("method")` raise
`AttributeError`, and the `except` handler's own `message_json.get("id")`
then raises again, so the exception propagates out of `handle_message`
(modelled as `Except.error`); a loaded dict is routed by `dispatch`. -/
def handle_message_parsed (lr : Except PyExc Json) (g : Session) :
    Except PyExc (Json × Session) :=
  match lr with
  | Except.error e => Except.ok (errorResponse Json.null (-32603) e.msg, g)
  | Except.ok mj =>
    match mj with
    | Json.obj kvs =>
      dispatch (objGetD kvs "method" Json.null)
        (objGetD kvs "params" (Json.obj [])) (objGetD kvs "id" Json.null) g
    | other => Except.error (attrNoGet other)

/-- `handle_message(message)`: parse, route, serialize. -/
def handle_message (msg : String) (g : Session) : Except PyExc (String × Session) :=
  match handle_message_parsed (loads msg) g with
  | Except.error e => Except.error e
  | Except.ok (j, g') => Except.ok (dumps j, g')

/-- The characters Python's `str.strip()` removes. -/
def isPyWs (c : Char) : Bool :=
  c == ' ' || c == '\t' || c == '\n' || c == '\r' || c == '\x0b' || c == '\x0c'

/-- Python `str.strip()` on a character list: drop whitespace from both
ends (right end first; the order is immaterial). -/
def pyStrip (cs : List Char) : List Char :=
  ((cs.reverse.dropWhile isPyWs).reverse).dropWhile isPyWs

/-- `sys.stdin.readline()` on the modelled input stream: the line up to
and including the first newline (or the whole rest at end-of-stream),
and the remaining stream. -/
def readLine : List Char → List Char × List Char
  | [] => ([], [])
  | c :: cs =>
    if c == '\n' then ([c], cs)
    else
      let p := readLine cs
      (c :: p.1, p.2)

/-- `line.split(":")[1].strip()`: the text between the first colon and
the following colon or end of line, stripped. -/
def headerVal (line : List Char) : List Char :=
  pyStrip (List.takeWhile (fun c => !(c == ':'))
    ((List.dropWhile (fun c => !(c == ':')) line).drop 1))

/-- `int(s)` on stripped text: an optional sign followed by at least one
digit; otherwise `ValueError`. -/
def pyInt (cs : List Char) : Except PyExc Int :=
  let intErr : PyExc :=
    ⟨ExcClass.valueError,
      "invalid literal for int() with base 10: \x27" ++ String.mk cs ++ "\x27"⟩
  match cs with
  | '-' :: ds =>
    if ds ≠ [] && ds.all Char.isDigit then Except.ok (-(digitsToNat ds : Int))
    else Except.error intErr
  | '+' :: ds =>
    if ds ≠ [] && ds.all Char.isDigit then Except.ok (digitsToNat ds : Int)
    else Except.error intErr
  | ds =>
    if ds ≠ [] && ds.all Char.isDigit then Except.ok (digitsToNat ds : Int)
    else Except.error intErr

/-- `sys.stdin.read(n)` on the modelled stream: the next `n` characters
(all remaining ones when `n` is negative, as in Python), and the
remaining stream. -/
def pyRead (n : Int) (cs : List Char) : List Char × List Char :=
  if n < 0 then (cs, []) else (cs.take n.toNat, cs.drop n.toNat)

/-- The bytes the write side emits for one response:
`Content-Length: <len>\r\n\r\n` followed by the serialized payload. -/
def frameStr (resp : String) : String :=
  "Content-Length: " ++ toString resp.length ++ "\r\n\r\n" ++ resp

/-- The header-line marker the read loop matches with `startswith`. -/
def clMark : List Char := "Content-Length:".toList

/-- The read loop of `main`: read a header line and strip it; stop
cleanly when it is empty; skip it when it does not start with
`Content-Length:`; otherwise parse the length with `int` (which can
raise), discard one line, read that many characters, handle the payload
(which can raise) and emit one framed response before looping.  The
result is the text written to the real stdout and the final session, or
the exception that escaped the loop. -/
def mainLoop (s : List Char) (g : Session) : Except PyExc (String × Session) :=
  let line := pyStrip (readLine s).1
  if hb : line = [] then Except.ok ("", g)
  else
    have hs : s ≠ [] := fun hnil => hb (by show pyStrip (readLine s).1 = []; rw [hnil]; rfl)
    if clMark.isPrefixOf line then
      match pyInt (headerVal line) with
      | Except.error e => Except.error e
      | Except.ok n =>
        let afterSkip := (readLine (readLine s).2).2
        let msg := pyRead n afterSkip
        match handle_message (String.mk msg.1) g with
        | Except.error e => Except.error e
        | Except.ok (resp, g') =>
          match mainLoop msg.2 g' with
          | Except.error e => Except.error e
          | Except.ok (out, g2) => Except.ok (frameStr resp ++ out, g2)
    else mainLoop (readLine s).2 g
termination_by s.length
decreasing_by
  · have hle : ∀ t : List Char, (readLine t).2.length ≤ t.length := by
      intro t
      induction t with
      | nil => simp [readLine]
      | cons c cs ih =>
        simp only [readLine]
        by_cases h : c == '\n'
        all_goals simp [h]
        all_goals omega
    have h1 : (readLine s).2.length < s.length := by
      cases s with
      | nil => exact absurd rfl hs
      | cons c cs =>
        have := hle cs
        simp only [readLine]
        by_cases hc : c == '\n'
        all_goals simp [hc]
        all_goals omega
    have h2 := hle (readLine s).2
    have h3 : (pyRead n (readLine (readLine s).2).2).2.length ≤
        (readLine (readLine s).2).2.length := by
      simp only [pyRead]
      by_cases hn : n < 0 <;> simp [hn]
    omega
  · have hle : ∀ t : List Char, (readLine t).2.length ≤ t.length := by
      intro t
      induction t with
      | nil => simp [readLine]
      | cons c cs ih =>
        simp only [readLine]
        by_cases h : c == '\n'
        all_goals simp [h]
        all_goals omega
    cases s with
    | nil => exact absurd rfl hs
    | cons c cs =>
      have := hle cs
      simp only [readLine]
      by_cases hc : c == '\n'
      all_goals simp [hc]
      all_goals omega

/-- The frame payload of the specification's concrete `tools/execute`
test property: tool `execute`, code `1+1`, id 1. -/
def c4req : String :=
  "\x7b\"jsonrpc\": \"2.0\", \"id\": 1, \"method\": \"tools/execute\", \"params\": \x7b\"tool\": \"execute\", \"arguments\": \x7b\"code\": \"1+1\"\x7d\x7d\x7d"

/-- The `result` member of a normally returned response (for inspecting
the wire shape of an execution result). -/
def responseResult (r : Except PyExc (Json × Session)) : Json :=
  match r with
  | Except.ok (j, _) => jget j "result"
  | Except.error _ => Json.null

/-! ## Helper lemmas -/

/-- The only exception `resolveName` raises is a `NameError`. -/
theorem resolveName_fault_cls (g : Session) (x : String) (ex : PyExc)
    (h : resolveName g x = Except.error ex) : ex.cls = ExcClass.nameError := by
  unfold resolveName at h
  cases hl : lookupVar g x with
  | some v => rw [hl] at h; cases h
  | none =>
    rw [hl] at h
    by_cases hp : x == "print"
    · rw [if_pos hp] at h; cases h
    · rw [if_neg hp] at h
      cases h
      rfl

/-- Expression evaluation in the fragment never raises an exception of
class `SyntaxError` (its runtime faults are `NameError`s and
`TypeError`s), so the `except SyntaxError` fallback in `execute_python`
is reached only through the parse stage. -/
theorem evalExpr_fault_cls (e : Expr) : ∀ (g : Session) (out : String) (ex : PyExc),
    evalExpr g e = (out, Except.error ex) → ex.cls ≠ ExcClass.syntaxError := by
  induction e with
  | lit n => intro g out ex h; cases h
  | var x =>
    intro g out ex h
    have h2 : resolveName g x = Except.error ex := congrArg Prod.snd h
    rw [resolveName_fault_cls g x ex h2]
    decide
  | add a b iha ihb =>
    intro g out ex h
    simp only [evalExpr] at h
    cases ha : evalExpr g a with
    | mk o1 r1 =>
      rw [ha] at h
      cases r1 with
      | error e1 =>
        simp at h
        rw [← h.2]
        exact iha g o1 e1 ha
      | ok v1 =>
        cases hb : evalExpr g b with
        | mk o2 r2 =>
          rw [hb] at h
          cases r2 with
          | error e2 =>
            simp at h
            rw [← h.2]
            exact ihb g o2 e2 hb
          | ok v2 =>
            simp at h
            cases v1 <;> cases v2 <;> simp [addVals] at h <;> rw [← h.2] <;> decide
  | call f a ih =>
    intro g out ex h
    simp only [evalExpr] at h
    cases hr : resolveName g f with
    | error e0 =>
      rw [hr] at h
      simp at h
      rw [← h.2, resolveName_fault_cls g f e0 hr]
      decide
    | ok v =>
      rw [hr] at h
      cases v with
      | builtinPrint =>
        cases ha : evalExpr g a with
        | mk o r =>
          rw [ha] at h
          cases r with
          | error e1 => simp at h; rw [← h.2]; exact ih g o e1 ha
          | ok w => simp at h
      | int n =>
        cases ha : evalExpr g a with
        | mk o r =>
          rw [ha] at h
          cases r with
          | error e1 => simp at h; rw [← h.2]; exact ih g o e1 ha
          | ok w => simp at h; rw [← h.2]; decide
      | pynone =>
        cases ha : evalExpr g a with
        | mk o r =>
          rw [ha] at h
          cases r with
          | error e1 => simp at h; rw [← h.2]; exact ih g o e1 ha
          | ok w => simp at h; rw [← h.2]; decide

/-- `readline` on a stream whose first line is `line` followed by a
newline returns that line (newline included) and the rest. -/
theorem readLine_append_newline (line rest : List Char) (h : '\n' ∉ line) :
    readLine (line ++ '\n' :: rest) = (line ++ ['\n'], rest) := by
  induction line with
  | nil => simp [readLine]
  | cons c cs ih =>
    have hc : ¬(c == '\n') := by
      simp only [List.mem_cons] at h
      simp
      intro hcc
      exact h (Or.inl hcc.symm)
    have hcs : '\n' ∉ cs := fun hm => h (List.mem_cons_of_mem c hm)
    simp only [List.cons_append, readLine, hc]
    simp [ih hcs]

/-- Stripping is blind to the trailing newline `readline` keeps. -/
theorem pyStrip_append_newline (l : List Char) :
    pyStrip (l ++ ['\n']) = pyStrip l := by
  simp [pyStrip, List.dropWhile, isPyWs]

/-- A dict lookup with a default yields the default when the key is
absent. -/
theorem objGetD_not_has (kvs : List (String × Json)) (k : String) (d : Json)
    (h : objHas kvs k = false) : objGetD kvs k d = d := by
  unfold objHas at h
  unfold objGetD
  have hnone : kvs.reverse.find? (fun p => p.1 == k) = none := by
    rw [List.find?_eq_none]
    intro p hp
    exact (List.any_eq_false.mp h) p (List.mem_reverse.mp hp)
  rw [hnone]

/-- One skip step of the read loop: a header line that strips to a
nonempty string not starting with `Content-Length:` is discarded and the
loop continues on the rest of the stream with the same session. -/
theorem mainLoop_skip (line rest : List Char) (g : Session)
    (h1 : '\n' ∉ line) (h2 : pyStrip line ≠ [])
    (h3 : clMark.isPrefixOf (pyStrip line) = false) :
    mainLoop (line ++ '\n' :: rest) g = mainLoop rest g := by
  conv_lhs => rw [mainLoop.eq_def]
  simp only [readLine_append_newline line rest h1, pyStrip_append_newline]
  rw [dif_neg h2]
  simp only [h3, Bool.false_eq_true, if_false]

/-- One faulting step of the read loop: a header line that starts with
`Content-Length:` but whose length field is not an integer raises
`ValueError` out of the loop. -/
theorem mainLoop_badLength (line rest : List Char) (g : Session) (e : PyExc)
    (h1 : '\n' ∉ line) (h2 : pyStrip line ≠ [])
    (h3 : clMark.isPrefixOf (pyStrip line) = true)
    (h4 : pyInt (headerVal (pyStrip line)) = Except.error e) :
    mainLoop (line ++ '\n' :: rest) g = Except.error e := by
  conv_lhs => rw [mainLoop.eq_def]
  simp only [readLine_append_newline line rest h1, pyStrip_append_newline]
  rw [dif_neg h2]
  simp only [h3, if_true, h4]

/-- `execute_python` on the empty snippet: `eval("")` raises
`SyntaxError`, `exec("")` runs zero statements, so the call succeeds with
no output, no error text and no value. -/
theorem execute_python_empty (sys : SysState) (g : Session) :
    execute_python "" sys g = (⟨true, "", "", none⟩, sys, g) := rfl

/-- A snippet that parses as an expression is settled entirely by one
evaluation of that expression: value → success with its representation,
fault → failure; the statement path is never entered (evaluation faults
in the fragment are never of class `SyntaxError`) and the session is
untouched. -/
theorem execute_python_expr_path (code : String) (sys : SysState)
    (g : Session) (e : Expr) (h : parseExpr code = some e) :
    execute_python code sys g =
      ((match evalExpr g e with
        | (out, Except.ok v) => (⟨true, out, "", reprOpt v⟩ : ExecResult)
        | (out, Except.error ex) => failResult out ex), sys, g) := by
  cases hv : evalExpr g e with
  | mk out r =>
    cases r with
    | ok v => simp [execute_python, capture_output, h, hv]
    | error ex =>
      have hcls := evalExpr_fault_cls e g out ex hv
      have hb : (ex.cls == ExcClass.syntaxError) = false := by
        cases hx : ex.cls == ExcClass.syntaxError
        · rfl
        · exact absurd (eq_of_beq hx) hcls
      simp [execute_python, capture_output, h, hv, hb]

/-! ## Claim theorems -/

/-- C1: the claim says `handle_message` never raises and answers every
frame payload with exactly one response (a -32603 error with null id when
the id could not be determined).  The code violates this: a payload that
is valid JSON but not an object — such as `5` — makes
`message_json.get("method")` raise `AttributeError`, and the `except`
handler's own `message_json.get("id")` raises again, so the exception
escapes `handle_message`, no response is produced, and the main loop
crashes on the frame `Content-Length: 1\r\n\r\n5`. -/
theorem C1_handle_message_raises_on_nonobject_payload :
    loads "5" = Except.ok (Json.num 5) ∧
    handle_message "5" [] = Except.error (attrNoGet (Json.num 5)) ∧
    mainLoop ("Content-Length: 1\r\n\r\n5").toList [] =
      Except.error (attrNoGet (Json.num 5)) := by
  refine ⟨rfl, rfl, ?_⟩
  unfold mainLoop
  rfl

/-- C2: a snippet that parses as an expression is routed to the
expression path of `execute_python` and its outcome is exactly the
outcome of evaluating that expression once — output captured once, the
session untouched; when the evaluation raises (necessarily not a
`SyntaxError` in the fragment), the call reports failure and the snippet
is never re-executed as a statement. -/
theorem C2_expression_path_evaluates_exactly_once (code : String) (sys : SysState)
    (g : Session) (e : Expr) (h : parseExpr code = some e) :
    execute_python code sys g =
      ((match evalExpr g e with
        | (out, Except.ok v) => (⟨true, out, "", reprOpt v⟩ : ExecResult)
        | (out, Except.error ex) => failResult out ex), sys, g) :=
  execute_python_expr_path code sys g e h

/-- C2 witness: `print(2) + boom` is a valid expression; evaluating it
prints `2` once and then raises `NameError`, and `execute_python` reports
failure with the single printed output — it does not retry the snippet as
a statement (which would print again). -/
theorem C2_expression_path_evaluates_exactly_once_witness :
    parseExpr "print(2) + boom" =
      some (Expr.add (Expr.call "print" (Expr.lit 2)) (Expr.var "boom")) ∧
    execute_python "print(2) + boom" procSys0 [] =
      (failResult "2\n" (nameErr "boom"), procSys0, []) := by
  refine ⟨rfl, ?_⟩
  rw [C2_expression_path_evaluates_exactly_once "print(2) + boom" procSys0 []
    (Expr.add (Expr.call "print" (Expr.lit 2)) (Expr.var "boom")) rfl]
  rfl

/-- C3 counterexample: the claim says a header line that does not match
`Content-Length: <N>` is always discarded (never terminating the loop)
and that the loop terminates cleanly only at end-of-stream.  Both parts
fail: the line `Content-Length: x` does not match the pattern, yet
`int()` raises `ValueError` and the loop terminates abnormally; and a
blank header line terminates the loop cleanly with input still pending. -/
theorem C3_counterexample_malformed_header :
    mainLoop ("Content-Length: x\n").toList [] =
      Except.error ⟨ExcClass.valueError,
        "invalid literal for int() with base 10: \x27x\x27"⟩ ∧
    mainLoop ("\nContent-Length: 2\r\n\r\n99").toList [] = Except.ok ("", []) := by
  constructor
  · unfold mainLoop
    rfl
  · unfold mainLoop
    rfl

/-- C3 amended: a header line that strips to a nonempty string not
starting with `Content-Length:` is discarded and the next line is read;
the loop terminates cleanly exactly when the stripped header line is
empty — at end-of-stream or on a blank line; and a header line starting
with `Content-Length:` whose length field is not a valid integer raises
`ValueError`, terminating the loop abnormally. -/
theorem C3_header_skip_and_clean_exit :
    (∀ (line rest : List Char) (g : Session), '\n' ∉ line → pyStrip line ≠ [] →
      clMark.isPrefixOf (pyStrip line) = false →
      mainLoop (line ++ '\n' :: rest) g = mainLoop rest g) ∧
    (∀ g : Session, mainLoop [] g = Except.ok ("", g)) ∧
    (∀ (rest : List Char) (g : Session), mainLoop ('\n' :: rest) g = Except.ok ("", g)) ∧
    (∀ (line rest : List Char) (g : Session) (e : PyExc), '\n' ∉ line →
      pyStrip line ≠ [] → clMark.isPrefixOf (pyStrip line) = true →
      pyInt (headerVal (pyStrip line)) = Except.error e →
      mainLoop (line ++ '\n' :: rest) g = Except.error e) := by
  refine ⟨mainLoop_skip, ?_, ?_, mainLoop_badLength⟩
  · intro g
    unfold mainLoop
    rfl
  · intro rest g
    unfold mainLoop
    rfl

/-- C3 witness: the non-matching header line `garbage` is discarded (the
loop continues on the rest of the stream, here empty, and then exits
cleanly). -/
theorem C3_header_skip_and_clean_exit_witness :
    mainLoop ("garbage\n").toList [] = mainLoop [] [] ∧
    mainLoop [] ([] : Session) = Except.ok ("", []) := by
  refine ⟨?_, C3_header_skip_and_clean_exit.2.1 []⟩
  exact C3_header_skip_and_clean_exit.1 ("garbage".toList) [] []
    (by decide) (by decide) (by decide)

/-- C4 counterexample: the claim says the ExecutionResult carries fields
named `stdout` and `stderr`.  The response to the concrete request (tool
`execute`, code `1+1`) instead carries the captured streams under the
keys `output` and `error`; there is no `stdout` or `stderr` member. -/
theorem C4_counterexample_no_stdout_stderr_fields :
    (responseResult (handle_message_parsed (loads c4req) [])).hasKey "stdout" = false ∧
    (responseResult (handle_message_parsed (loads c4req) [])).hasKey "stderr" = false ∧
    (responseResult (handle_message_parsed (loads c4req) [])).hasKey "output" = true ∧
    (responseResult (handle_message_parsed (loads c4req) [])).hasKey "error" = true := by
  refine ⟨rfl, rfl, rfl, rfl⟩

/-- C4 amended: handling the `tools/execute` request with tool `execute`
and code `1+1` produces a success response, echoing id 1, whose result is
`{success: true, output: "", error: "", result: "2"}` — the evaluation
yields the textual representation `2` with both captured streams empty,
carried under the keys `output` and `error`. -/
theorem C4_execute_one_plus_one :
    handle_message_parsed (loads c4req) [] =
      Except.ok (successResponse (Json.num 1)
        (ExecResult.toJson ⟨true, "", "", some "2"⟩), []) := rfl

/-- C5: a snippet whose expression evaluation raises a runtime fault, or
whose statement execution raises one, yields an ExecutionResult with
`success = false`, an absent (`None`) result, and a non-empty stderr text
holding the formatted trace; and at the envelope level an execute request
always yields a normal success response wrapping whatever
`execute_python` returned, so the server answers the next request. -/
theorem C5_runtime_fault_reported_in_result :
    (∀ (code : String) (sys : SysState) (g : Session) (e : Expr) (out : String)
      (ex : PyExc), parseExpr code = some e →
      evalExpr g e = (out, Except.error ex) →
      execute_python code sys g = (failResult out ex, sys, g)) ∧
    (∀ (code : String) (sys : SysState) (g g' : Session) (ss : List Stmt)
      (out : String) (ex : PyExc), parseExpr code = none →
      parseStmts code = some ss →
      execStmts g ss = (out, g', Except.error ex) →
      execute_python code sys g = (failResult out ex, sys, g')) ∧
    (∀ (out : String) (ex : PyExc), (failResult out ex).success = false ∧
      (failResult out ex).result = none ∧ 0 < (failResult out ex).error.length) ∧
    (∀ (codej idv : Json) (g : Session),
      dispatch (Json.str "tools/execute")
        (Json.obj [("tool", Json.str "execute"),
          ("arguments", Json.obj [("code", codej)])]) idv g =
      Except.ok (successResponse idv
        (ExecResult.toJson (execute_python_j codej procSys0 g).1),
        (execute_python_j codej procSys0 g).2.2)) := by
  refine ⟨?_, ?_, ?_, ?_⟩
  · intro code sys g e out ex hp hv
    rw [execute_python_expr_path code sys g e hp, hv]
  · intro code sys g g' ss out ex hp hs hex
    simp only [execute_python, capture_output, runExecPath, hp, hs, hex]
    rfl
  · intro out ex
    refine ⟨rfl, rfl, ?_⟩
    simp [failResult, String.length_append]
    left
    decide
  · intro codej idv g
    rfl

/-- C5 witness: evaluating the unbound name `boom` raises `NameError`;
the call reports failure with no result and a non-empty trace. -/
theorem C5_runtime_fault_reported_in_result_witness :
    execute_python "boom" procSys0 [] =
      (failResult "" (nameErr "boom"), procSys0, []) ∧
    (failResult "" (nameErr "boom")).success = false ∧
    (failResult "" (nameErr "boom")).result = none ∧
    0 < (failResult "" (nameErr "boom")).error.length := by
  refine ⟨C5_runtime_fault_reported_in_result.1 "boom" procSys0 []
      (Expr.var "boom") "" (nameErr "boom") rfl rfl,
    (C5_runtime_fault_reported_in_result.2.2.1 "" (nameErr "boom")).1,
    (C5_runtime_fault_reported_in_result.2.2.1 "" (nameErr "boom")).2.1,
    (C5_runtime_fault_reported_in_result.2.2.1 "" (nameErr "boom")).2.2⟩

/-- C6: session mutations persist across evaluator calls: executing
`x = 5` against the fresh session and then evaluating `x + 1` against
the resulting session succeeds with result `6`. -/
theorem C6_session_round_trip :
    (execute_python "x = 5" procSys0 []).1.success = true ∧
    (execute_python "x = 5" procSys0 []).2.2 = [("x", PyVal.int 5)] ∧
    execute_python "x + 1" procSys0 (execute_python "x = 5" procSys0 []).2.2 =
      (⟨true, "", "", some "6"⟩, procSys0, [("x", PyVal.int 5)]) :=
  ⟨rfl, rfl, rfl⟩

/-- C7: a `tools/execute` request whose tool parameter is anything other
than the string `execute` is answered (normally, so the loop continues)
with a -32601 error whose message is `Tool not found: <tool>`, the
session unchanged; and an error response carries no `result` member. -/
theorem C7_unknown_tool_not_found (kvs pkvs : List (String × Json)) (g : Session)
    (hm : objGetD kvs "method" Json.null = Json.str "tools/execute")
    (hp : objGetD kvs "params" (Json.obj []) = Json.obj pkvs)
    (ht : (objGetD pkvs "tool" Json.null).eqStr "execute" = false) :
    handle_message_parsed (Except.ok (Json.obj kvs)) g =
      Except.ok (errorResponse (objGetD kvs "id" Json.null) (-32601)
        ("Tool not found: " ++ pyStrJson (objGetD pkvs "tool" Json.null)), g) ∧
    (∀ (idv : Json) (c : Int) (m : String),
      (errorResponse idv c m).hasKey "result" = false ∧
      (errorResponse idv c m).hasKey "error" = true) := by
  constructor
  · simp only [handle_message_parsed, dispatch, hm, hp, ht,
      show (Json.str "tools/execute").eqStr "initialize" = false from rfl,
      show (Json.str "tools/execute").eqStr "tools/list" = false from rfl,
      show (Json.str "tools/execute").eqStr "tools/execute" = true from rfl,
      Bool.false_eq_true, if_false, if_true]
  · intro idv c m
    exact ⟨rfl, rfl⟩

/-- C7 witness: tool `foo` yields the -32601 error with the message
containing `foo`, and the session is unchanged. -/
theorem C7_unknown_tool_not_found_witness :
    handle_message_parsed (Except.ok (Json.obj [("method", Json.str "tools/execute"),
      ("id", Json.num 3), ("params", Json.obj [("tool", Json.str "foo")])])) [] =
      Except.ok (errorResponse (Json.num 3) (-32601) ("Tool not found: " ++ "foo"), []) := by
  have h := (C7_unknown_tool_not_found
    [("method", Json.str "tools/execute"), ("id", Json.num 3),
      ("params", Json.obj [("tool", Json.str "foo")])]
    [("tool", Json.str "foo")] [] rfl rfl rfl).1
  simpa [pyStrJson] using h

/-- C8: an `initialize` request is answered with the literal
protocolVersion `2024-11-05`, empty capabilities and serverInfo
`python-repl`/`1.0.0`, the request id echoed; and a request whose method
is none of `initialize`, `tools/list`, `tools/execute` is answered with a
success response carrying the empty object as result — never an error. -/
theorem C8_initialize_and_unknown_method :
    (∀ (kvs : List (String × Json)) (g : Session),
      objGetD kvs "method" Json.null = Json.str "initialize" →
      handle_message_parsed (Except.ok (Json.obj kvs)) g =
        Except.ok (successResponse (objGetD kvs "id" Json.null)
          (Json.obj [("protocolVersion", Json.str "2024-11-05"),
            ("capabilities", Json.obj []),
            ("serverInfo", Json.obj [("name", Json.str "python-repl"),
              ("version", Json.str "1.0.0")])]), g)) ∧
    (∀ (kvs : List (String × Json)) (g : Session),
      (objGetD kvs "method" Json.null).eqStr "initialize" = false →
      (objGetD kvs "method" Json.null).eqStr "tools/list" = false →
      (objGetD kvs "method" Json.null).eqStr "tools/execute" = false →
      handle_message_parsed (Except.ok (Json.obj kvs)) g =
        Except.ok (successResponse (objGetD kvs "id" Json.null) (Json.obj []), g)) := by
  constructor
  · intro kvs g hm
    simp only [handle_message_parsed, dispatch, hm,
      show (Json.str "initialize").eqStr "initialize" = true from rfl, if_true]
    rfl
  · intro kvs g hm hl he
    simp only [handle_message_parsed, dispatch, hm, hl, he,
      Bool.false_eq_true, if_false]

/-- C8 witness: a concrete `initialize` request with id 1 and a concrete
`ping` request (unknown method, no id, so null is echoed). -/
theorem C8_initialize_and_unknown_method_witness :
    handle_message_parsed (Except.ok (Json.obj [("method", Json.str "initialize"),
      ("id", Json.num 1)])) [] =
      Except.ok (successResponse (Json.num 1)
        (Json.obj [("protocolVersion", Json.str "2024-11-05"),
          ("capabilities", Json.obj []),
          ("serverInfo", Json.obj [("name", Json.str "python-repl"),
            ("version", Json.str "1.0.0")])]), []) ∧
    handle_message_parsed (Except.ok (Json.obj [("method", Json.str "ping")])) [] =
      Except.ok (successResponse Json.null (Json.obj []), []) :=
  ⟨C8_initialize_and_unknown_method.1 [("method", Json.str "initialize"),
      ("id", Json.num 1)] [] rfl,
    C8_initialize_and_unknown_method.2 [("method", Json.str "ping")] [] rfl rfl rfl⟩

/-- C9: `execute_python` restores the process's stream slots on every
exit path — the `SysState` after the call equals the one before, for
every snippet and session; in the model the only other process state is
the session store and the call-scoped capture buffers. -/
theorem C9_capture_redirection_restored (code : String) (sys : SysState) (g : Session) :
    (execute_python code sys g).2.1 = sys := rfl

/-- C10: a `tools/execute` request with tool `execute` whose arguments
mapping lacks a `code` entry invokes the evaluator on the empty string,
and the response is a success whose ExecutionResult has `success = true`,
an absent result and empty captured output — not an error. -/
theorem C10_missing_code_executes_empty_string (kvs pkvs akvs : List (String × Json))
    (g : Session)
    (hm : objGetD kvs "method" Json.null = Json.str "tools/execute")
    (hp : objGetD kvs "params" (Json.obj []) = Json.obj pkvs)
    (ht : (objGetD pkvs "tool" Json.null).eqStr "execute" = true)
    (ha : objGetD pkvs "arguments" (Json.obj []) = Json.obj akvs)
    (hc : objHas akvs "code" = false) :
    handle_message_parsed (Except.ok (Json.obj kvs)) g =
      Except.ok (successResponse (objGetD kvs "id" Json.null)
        (ExecResult.toJson (execute_python "" procSys0 g).1),
        (execute_python "" procSys0 g).2.2) ∧
    execute_python "" procSys0 g = (⟨true, "", "", none⟩, procSys0, g) := by
  constructor
  · simp only [handle_message_parsed, dispatch, hm, hp, ht, ha,
      show (Json.str "tools/execute").eqStr "initialize" = false from rfl,
      show (Json.str "tools/execute").eqStr "tools/list" = false from rfl,
      show (Json.str "tools/execute").eqStr "tools/execute" = true from rfl,
      Bool.false_eq_true, if_false, if_true,
      objGetD_not_has akvs "code" (Json.str "") hc]
    rfl
  · exact execute_python_empty procSys0 g

/-- C10 witness: a concrete execute request with an empty arguments
mapping, id 7. -/
theorem C10_missing_code_executes_empty_string_witness :
    handle_message_parsed (Except.ok (Json.obj [("method", Json.str "tools/execute"),
      ("id", Json.num 7), ("params", Json.obj [("tool", Json.str "execute"),
        ("arguments", Json.obj [])])])) [] =
      Except.ok (successResponse (Json.num 7)
        (ExecResult.toJson ⟨true, "", "", none⟩), []) := by
  have h := (C10_missing_code_executes_empty_string
    [("method", Json.str "tools/execute"), ("id", Json.num 7),
      ("params", Json.obj [("tool", Json.str "execute"), ("arguments", Json.obj [])])]
    [("tool", Json.str "execute"), ("arguments", Json.obj [])] [] []
    rfl rfl rfl rfl rfl).1
  simpa using h

end PyRepl
